import Mathlib

/-!
Verification of the split-viewport 3D product showcase
(grlindburg/TN-boards).

The repository holds three near-duplicate variants of one class
`ProductShowcase`:

* a hover-driven variant (`src/unnamed/part_000`),
* a first scroll-driven variant (`src/assets/three-product-showcase.js`,
  first copy), and
* a second scroll-driven variant (same file, second copy) that additionally
  updates the camera aspect inside `render` and really loads a GLTF asset.

The definitions below embed, per variant, the pure computations of those
methods: the viewport/scissor layout of `render`, the scroll handler
`onScroll` (with JavaScript number semantics for the division), the
exponential smoothing of `animate`, the hover flags of `onMouseMove`, the
lifecycle transitions (`destroy`, the IntersectionObserver callback, the
GLTF load continuation), and the completion counting of `loadModels`.
Surface sizes and pixel coordinates are natural numbers; continuous
quantities (aspect ratios, scroll progress, pointer coordinates) are exact
rationals; a model rotation is tracked in turns (units of 2*pi radians).
-/

namespace ProductShowcase

/-- A viewport/scissor rectangle `(x, y, width, height)` in surface pixels,
as passed to `renderer.setViewport` / `renderer.setScissor`. -/
structure Rect where
  x : ℕ
  y : ℕ
  w : ℕ
  h : ℕ
deriving DecidableEq, Repr

/-- The mobile-layout test `window.innerWidth < 768`, recomputed by the
constructor and by `onResize` and read by `render`. -/
def isMobileWidth (width : ℕ) : Bool :=
  width < 768

/-- The two viewport/scissor rectangles `render` computes for a surface of
the given size: `halfHeight = Math.floor(height / 2)` gives a top/bottom
split when the width is below the 768px breakpoint, otherwise
`halfWidth = Math.floor(width / 2)` gives a left/right split.  The first
component is the first panel's region (top resp. left). -/
def renderRegions (width height : ℕ) : Rect × Rect :=
  if width < 768 then
    (⟨0, height / 2, width, height / 2⟩, ⟨0, 0, width, height / 2⟩)
  else
    (⟨0, 0, width / 2, height⟩, ⟨width / 2, 0, width / 2, height⟩)

/-- Pixel `(px, py)` lies inside the rectangle. -/
def Rect.contains (r : Rect) (px py : ℕ) : Prop :=
  r.x ≤ px ∧ px < r.x + r.w ∧ r.y ≤ py ∧ py < r.y + r.h

instance (r : Rect) (px py : ℕ) : Decidable (r.contains px py) := by
  unfold Rect.contains
  infer_instance

/-- One effect of a `render` call on the renderer or the shared camera, in
call order: `camera.aspect = a`, `camera.updateProjectionMatrix()`,
`renderer.setViewport(...)`, `renderer.setScissor(...)`, and a
`renderer.render(scenes[i], camera)` draw call for scene index `i`. -/
inductive RenderOp where
  | setAspect (a : ℚ)
  | updateProjection
  | setViewport (r : Rect)
  | setScissor (r : Rect)
  | draw (idx : ℕ)
deriving DecidableEq, Repr

/-- The `render` method of the first scroll variant
(`src/assets/three-product-showcase.js` lines 350-391): it never touches
the camera; region 0's viewport/scissor are set unconditionally and its
draw is guarded by `if (this.scenes[0])`, while region 1's viewport,
scissor and draw are all guarded by `if (this.scenes[1])`.  The Booleans
say whether `scenes[0]` / `scenes[1]` are present. -/
def renderScrollV1 (width height : ℕ) (scene0 scene1 : Bool) : List RenderOp :=
  if width < 768 then
    [RenderOp.setViewport ⟨0, height / 2, width, height / 2⟩,
     RenderOp.setScissor ⟨0, height / 2, width, height / 2⟩] ++
    (if scene0 then [RenderOp.draw 0] else []) ++
    (if scene1 then
      [RenderOp.setViewport ⟨0, 0, width, height / 2⟩,
       RenderOp.setScissor ⟨0, 0, width, height / 2⟩, RenderOp.draw 1]
     else [])
  else
    [RenderOp.setViewport ⟨0, 0, width / 2, height⟩,
     RenderOp.setScissor ⟨0, 0, width / 2, height⟩] ++
    (if scene0 then [RenderOp.draw 0] else []) ++
    (if scene1 then
      [RenderOp.setViewport ⟨width / 2, 0, width / 2, height⟩,
       RenderOp.setScissor ⟨width / 2, 0, width / 2, height⟩, RenderOp.draw 1]
     else [])

/-- The `render` method of the second scroll variant
(`src/assets/three-product-showcase.js` lines 804-853): like the first
variant, but before the regions are drawn it sets
`camera.aspect = width / halfHeight` (top/bottom split) resp.
`camera.aspect = halfWidth / height` (left/right split) and calls
`camera.updateProjectionMatrix()` once, ahead of both draws. -/
def renderScrollV2 (width height : ℕ) (scene0 scene1 : Bool) : List RenderOp :=
  if width < 768 then
    [RenderOp.setAspect ((width : ℚ) / ((height / 2 : ℕ) : ℚ)), RenderOp.updateProjection,
     RenderOp.setViewport ⟨0, height / 2, width, height / 2⟩,
     RenderOp.setScissor ⟨0, height / 2, width, height / 2⟩] ++
    (if scene0 then [RenderOp.draw 0] else []) ++
    (if scene1 then
      [RenderOp.setViewport ⟨0, 0, width, height / 2⟩,
       RenderOp.setScissor ⟨0, 0, width, height / 2⟩, RenderOp.draw 1]
     else [])
  else
    [RenderOp.setAspect (((width / 2 : ℕ) : ℚ) / ((height : ℕ) : ℚ)), RenderOp.updateProjection,
     RenderOp.setViewport ⟨0, 0, width / 2, height⟩,
     RenderOp.setScissor ⟨0, 0, width / 2, height⟩] ++
    (if scene0 then [RenderOp.draw 0] else []) ++
    (if scene1 then
      [RenderOp.setViewport ⟨width / 2, 0, width / 2, height⟩,
       RenderOp.setScissor ⟨width / 2, 0, width / 2, height⟩, RenderOp.draw 1]
     else [])

/-- The `render` method of the hover variant (`src/unnamed/part_000` lines
320-357): no camera update either, and region 0's draw call
`this.renderer.render(this.scenes[0], this.camera)` is NOT guarded — when
`scenes[0]` is absent the call throws inside three.js, modelled as `none`;
region 1 is guarded as in the other variants. -/
def renderHover (width height : ℕ) (scene0 scene1 : Bool) : Option (List RenderOp) :=
  if width < 768 then
    if scene0 then
      some
        ([RenderOp.setViewport ⟨0, height / 2, width, height / 2⟩,
          RenderOp.setScissor ⟨0, height / 2, width, height / 2⟩, RenderOp.draw 0] ++
         (if scene1 then
           [RenderOp.setViewport ⟨0, 0, width, height / 2⟩,
            RenderOp.setScissor ⟨0, 0, width, height / 2⟩, RenderOp.draw 1]
          else []))
    else none
  else
    if scene0 then
      some
        ([RenderOp.setViewport ⟨0, 0, width / 2, height⟩,
          RenderOp.setScissor ⟨0, 0, width / 2, height⟩, RenderOp.draw 0] ++
         (if scene1 then
           [RenderOp.setViewport ⟨width / 2, 0, width / 2, height⟩,
            RenderOp.setScissor ⟨width / 2, 0, width / 2, height⟩, RenderOp.draw 1]
          else []))
    else none

/-- The shared perspective camera's state as far as `render` reads and
writes it: the `aspect` field, and the aspect baked into the projection
matrix at the last `updateProjectionMatrix()` call. -/
structure CamState where
  aspect : ℚ
  projAspect : ℚ
deriving DecidableEq, Repr

/-- How one render operation changes the camera. -/
def camStep (c : CamState) : RenderOp → CamState
  | RenderOp.setAspect a => ⟨a, c.projAspect⟩
  | RenderOp.updateProjection => ⟨c.aspect, c.aspect⟩
  | _ => c

/-- The draw calls of a trace, each paired with the projection aspect in
force when it runs, starting from camera state `c`. -/
def drawAspects (c : CamState) : List RenderOp → List (ℕ × ℚ)
  | [] => []
  | RenderOp.draw i :: rest => (i, c.projAspect) :: drawAspects c rest
  | op :: rest => drawAspects (camStep c op) rest

/-- Width over height of a rectangle. -/
def Rect.aspectRatio (r : Rect) : ℚ :=
  (r.w : ℚ) / (r.h : ℚ)

/-- The region `render` assigns to scene index `i` (0 = top/left,
1 = bottom/right). -/
def regionRect (width height i : ℕ) : Rect :=
  if i = 0 then (renderRegions width height).1 else (renderRegions width height).2

/-- Every draw call of the trace runs with the projection aspect equal to
its region's width/height. -/
def drawsUseRegionAspect (width height : ℕ) (c : CamState) (ops : List RenderOp) : Prop :=
  ∀ p ∈ drawAspects c ops, p.2 = (regionRect width height p.1).aspectRatio

instance (width height : ℕ) (c : CamState) (ops : List RenderOp) :
    Decidable (drawsUseRegionAspect width height c ops) := by
  unfold drawsUseRegionAspect
  exact List.decidableBAll _ _

/-- The per-panel hover flags `this.isHovered = [false, false]` of the
hover variant. -/
structure HoverState where
  h0 : Bool
  h1 : Bool
deriving DecidableEq, Repr

/-- `onMouseMove` of the hover variant (`src/unnamed/part_000` lines
274-290): with the pointer at `(x, y)` relative to the canvas rectangle of
size `cw` by `ch`, the vertical split on mobile assigns
`isHovered[0] = y < midY` and `isHovered[1] = y >= midY` with
`midY = rect.height / 2`; otherwise the horizontal split does the same
with `midX = rect.width / 2` and the x coordinate. -/
def onMouseMove (isMobile : Bool) (cw ch x y : ℚ) : HoverState :=
  if isMobile then
    ⟨decide (y < ch / 2), decide (ch / 2 ≤ y)⟩
  else
    ⟨decide (x < cw / 2), decide (cw / 2 ≤ x)⟩

/-- The canvas `mouseleave` handler (setupEventListeners):
`this.isHovered = [false, false]`. -/
def onCanvasMouseLeave : HoverState :=
  ⟨false, false⟩

/-- A JavaScript number as far as `onScroll` can observe it: a finite
value (kept exact as a rational, ignoring float rounding), one of the two
infinities, or NaN. -/
inductive JSNum where
  | num : ℚ → JSNum
  | posInf : JSNum
  | negInf : JSNum
  | nan : JSNum
deriving DecidableEq, Repr

/-- JavaScript division `a / b` of two finite numbers: division by zero
yields NaN for `0 / 0` and a signed infinity otherwise. -/
def jsDiv (a b : ℚ) : JSNum :=
  if b = 0 then
    if a = 0 then JSNum.nan
    else if 0 < a then JSNum.posInf
    else JSNum.negInf
  else JSNum.num (a / b)

/-- `Math.min(a, x)` with a finite first argument: NaN propagates. -/
def jsMin (a : ℚ) : JSNum → JSNum
  | JSNum.num b => JSNum.num (min a b)
  | JSNum.posInf => JSNum.num a
  | JSNum.negInf => JSNum.negInf
  | JSNum.nan => JSNum.nan

/-- `Math.max(a, x)` with a finite first argument: NaN propagates. -/
def jsMax (a : ℚ) : JSNum → JSNum
  | JSNum.num b => JSNum.num (max a b)
  | JSNum.posInf => JSNum.posInf
  | JSNum.negInf => JSNum.num a
  | JSNum.nan => JSNum.nan

/-- `onScroll` of the scroll variants (lines 299-310 and 755-766 of
`src/assets/three-product-showcase.js`): with the section's bounding
rectangle top at `rectTop`, it computes `scrolled = -rect.top` and
`totalScrollable = sectionHeight - viewportHeight` (no clamping of the
denominator), and stores
`Math.max(0, Math.min(1, scrolled / totalScrollable))` as the target
scroll progress. -/
def onScroll (rectTop sectionHeight viewportHeight : ℚ) : JSNum :=
  jsMax 0 (jsMin 1 (jsDiv (-rectTop) (sectionHeight - viewportHeight)))

/-- One smoothing step of `animate`:
`this.scrollProgress += (this.targetScrollProgress - this.scrollProgress) * 0.08`. -/
def smoothStep (target displayed : ℚ) : ℚ :=
  displayed + (target - displayed) * 0.08

/-- The displayed progress after `n` ticks of `animate` with a constant
target. -/
def smoothIter (target d0 : ℚ) : ℕ → ℚ
  | 0 => d0
  | n + 1 => smoothStep target (smoothIter target d0 n)

/-- The mutable state of a scroll-variant `ProductShowcase` instance that
the lifecycle methods touch.  A model rotation is kept in turns (the code
stores `scrollProgress * Math.PI * 2` radians); `none` in `models` is a
slot whose asset has not resolved yet; `sceneModels` counts the model
nodes added into the scenes so far. -/
structure ShowState where
  isInView : Bool
  observerConnected : Bool
  rendererDisposed : Bool
  scrollProgress : ℚ
  targetScrollProgress : ℚ
  models : List (Option ℚ)
  sceneModels : ℕ
deriving DecidableEq, Repr

/-- One `animate` tick of the scroll variants (lines 324-348 and 780-802):
`requestAnimationFrame(() => this.animate())` runs first, unconditionally,
then the whole body is skipped when `!this.isInView`; otherwise the
displayed progress is smoothed toward the target, every present model's
rotation is set from it, and `render` runs.  Returns the new state,
whether another frame was scheduled, and whether `render` was called. -/
def animateTick (s : ShowState) : ShowState × Bool × Bool :=
  if s.isInView = false then (s, true, false)
  else
    let p := smoothStep s.targetScrollProgress s.scrollProgress
    ({ s with scrollProgress := p, models := s.models.map (Option.map fun _ => p) },
     true, true)

/-- `destroy` (lines 855-878, variant 1 at 393-415): disconnects the
IntersectionObserver and disposes the renderer and the scenes' geometry
and materials; it does not cancel the animation loop, does not clear
`isInView`, and installs no guard against pending load callbacks. -/
def destroy (s : ShowState) : ShowState :=
  { s with observerConnected := false, rendererDisposed := true }

/-- The IntersectionObserver callback of `setupScrollObserver`:
`this.isInView = entry.isIntersecting`. -/
def observerCallback (s : ShowState) (isIntersecting : Bool) : ShowState :=
  { s with isInView := isIntersecting }

/-- The GLTF load success continuation of the second scroll variant's
`loadModels` (lines 558-635): it unconditionally stores the new model node
(`this.models[index] = animationGroup`, rotation 0) and adds it to its
scene (`this.scenes[index].add(animationGroup)`), with no check that the
instance is still alive. -/
def gltfOnLoad (s : ShowState) (idx : ℕ) : ShowState :=
  { s with models := s.models.set idx (some 0), sceneModels := s.sceneModels + 1 }

/-- A live instance with the first panel's load still pending, as left by
`init` once one continuation has resolved. -/
def pendingState : ShowState :=
  ⟨true, true, false, 0, 1, [none, some 0], 1⟩

/-- A paused instance (scrolled out of view). -/
def pausedState : ShowState :=
  ⟨false, true, false, 1 / 2, 1, [some 0, some 0], 2⟩

/-- One panel's parsed configuration `{ accentColor, model }` (the field
contents are irrelevant to the load counting). -/
structure PanelConfig where
  accentColor : ℕ
  modelRef : ℕ
deriving DecidableEq, Repr

/-- The constructor's
`this.panels = JSON.parse(container.dataset.panels || chr)`, with chr the
two-character empty-array literal: an absent data attribute parses to the
empty list. -/
def parsedPanels (panelsAttr : Option (List PanelConfig)) : List PanelConfig :=
  panelsAttr.getD []

/-- What `loadModels` (first scroll variant, lines 125-179) counts: how
many loads completed and how many times `onModelsLoaded` — the ready
signal that hides the loading indicator — was invoked. -/
structure LoadOutcome where
  loadedCount : ℕ
  readyCalls : ℕ
deriving DecidableEq, Repr

/-- One iteration of the `loadModels` forEach body: create the placeholder
model, `loadedCount++`, and call `onModelsLoaded` exactly when
`loadedCount === this.panels.length`. -/
def loadModelsStep (total : ℕ) (acc : LoadOutcome) : LoadOutcome :=
  ⟨acc.loadedCount + 1,
   if acc.loadedCount + 1 = total then acc.readyCalls + 1 else acc.readyCalls⟩

/-- Running the `loadModels` forEach over the parsed panel list. -/
def loadModels (panels : List PanelConfig) : LoadOutcome :=
  panels.foldl (fun acc _ => loadModelsStep panels.length acc) ⟨0, 0⟩

/-- The loading indicator is hidden exactly when `onModelsLoaded` ran at
least once. -/
def loadingHidden (o : LoadOutcome) : Bool :=
  decide (0 < o.readyCalls)

end ProductShowcase

namespace ProductShowcase

/-- C1 (counterexample): on a 769x600 surface (left/right split, since
769 is not below the 768 breakpoint) the surface pixel `(768, 0)` lies in
neither computed region: `Math.floor(769 / 2) = 384` is used as the width
of both halves, so the rightmost pixel column is covered by neither
rectangle and the union does not cover the full surface. -/
theorem renderRegions_odd_width_gap :
    768 < 769 ∧ 0 < 600 ∧
    ¬ (renderRegions 769 600).1.contains 768 0 ∧
    ¬ (renderRegions 769 600).2.contains 768 0 := by
  decide

/-- C1 (amended): for every surface size the two rectangles computed by
`render` are disjoint, and their union is exactly the pixels whose
split-axis coordinate is below twice the floored half (`2 * (height / 2)`
for the top/bottom split, `2 * (width / 2)` for the left/right split); when
the split dimension is even this is full coverage of the surface, while an
odd split dimension leaves a one-pixel strip uncovered. -/
theorem renderRegions_disjoint_cover (width height : ℕ) :
    (∀ px py, ¬ ((renderRegions width height).1.contains px py ∧
        (renderRegions width height).2.contains px py)) ∧
    (∀ px py,
      ((renderRegions width height).1.contains px py ∨
          (renderRegions width height).2.contains px py) ↔
        (if width < 768 then px < width ∧ py < 2 * (height / 2)
         else px < 2 * (width / 2) ∧ py < height)) ∧
    ((if width < 768 then height % 2 = 0 else width % 2 = 0) →
      ∀ px py,
        ((renderRegions width height).1.contains px py ∨
            (renderRegions width height).2.contains px py) ↔
          (px < width ∧ py < height)) := by
  by_cases hw : width < 768 <;>
    simp only [renderRegions, hw, if_true, if_false, Rect.contains] <;>
    refine ⟨fun px py => by omega, fun px py => by omega, fun hpar px py => by omega⟩

/-- C6 (counterexample): layout orientation is not a function of the
surface aspect ratio, and `width < height` does not imply a top/bottom
split.  Surfaces 1536x192 and 384x48 have the same aspect ratio 8, yet the
first is split left/right and the second top/bottom; and the 800x900
surface has `width < height` but is split left/right, because the code
branches on `window.innerWidth < 768` alone. -/
theorem renderRegions_orientation_not_aspect_function :
    (1536 : ℚ) / 192 = (384 : ℚ) / 48 ∧
    isMobileWidth 1536 = false ∧
    isMobileWidth 384 = true ∧
    renderRegions 1536 192 = (⟨0, 0, 768, 192⟩, ⟨768, 0, 768, 192⟩) ∧
    renderRegions 384 48 = (⟨0, 24, 384, 24⟩, ⟨0, 0, 384, 24⟩) ∧
    (800 < 900 ∧
      renderRegions 800 900 = (⟨0, 0, 400, 900⟩, ⟨400, 0, 400, 900⟩)) := by
  refine ⟨by norm_num, by decide, by decide, by decide, by decide, by decide, by decide⟩

/-- C6 (amended): layout orientation is a deterministic pure function of
the surface width against the fixed 768px breakpoint: width below 768
gives the top/bottom split, otherwise the left/right split, identical on
every call with the same input; in particular a 1024x600 surface yields
left region (0,0,512,600) and right region (512,0,512,600), and a 375x800
surface yields top region (0,400,375,400) and bottom region
(0,0,375,400). -/
theorem renderRegions_layout_by_width (width height : ℕ) :
    (width < 768 →
      renderRegions width height =
        (⟨0, height / 2, width, height / 2⟩, ⟨0, 0, width, height / 2⟩)) ∧
    (768 ≤ width →
      renderRegions width height =
        (⟨0, 0, width / 2, height⟩, ⟨width / 2, 0, width / 2, height⟩)) ∧
    renderRegions 1024 600 = (⟨0, 0, 512, 600⟩, ⟨512, 0, 512, 600⟩) ∧
    renderRegions 375 800 = (⟨0, 400, 375, 400⟩, ⟨0, 0, 375, 400⟩) := by
  refine ⟨fun hlt => ?_, fun hge => ?_, by decide, by decide⟩
  · simp [renderRegions, hlt]
  · simp [renderRegions, Nat.not_lt.mpr hge]

/-- Helper: which draw calls the first scroll variant's `render` emits. -/
theorem mem_draw_renderScrollV1 (width height : ℕ) (scene0 scene1 : Bool) (i : ℕ) :
    RenderOp.draw i ∈ renderScrollV1 width height scene0 scene1 ↔
      (i = 0 ∧ scene0 = true) ∨ (i = 1 ∧ scene1 = true) := by
  unfold renderScrollV1
  by_cases hw : width < 768 <;> cases scene0 <;> cases scene1 <;> simp [hw]

/-- C5 (counterexample): in the hover variant, `render` at a 1024x600
surface with both scenes present issues both draw calls with the
projection still at the full-surface aspect 1024/600 set by the last
resize, not at the half-region aspect 512/600: the camera aspect is never
recomputed per region before a draw. -/
theorem renderHover_ignores_region_aspect :
    (1024 : ℚ) / 600 ≠ (512 : ℚ) / 600 ∧
    ¬ drawsUseRegionAspect 1024 600 ⟨1024 / 600, 1024 / 600⟩
        ((renderHover 1024 600 true true).getD []) := by
  refine ⟨by norm_num, fun hall => ?_⟩
  have h0 := hall ((0 : ℕ), (1024 : ℚ) / 600)
    (by simp [renderHover, drawAspects, camStep])
  have h1 : (1024 : ℚ) / 600 = (512 : ℚ) / 600 := by
    simpa [regionRect, renderRegions, Rect.aspectRatio] using h0
  norm_num at h1

/-- C5 (amended): in the second scroll variant, `render` sets the shared
camera's aspect ratio to the regions' common width/height and recomputes
the projection before any region is drawn, so every draw call of a frame
runs with the projection aspect equal to its region's width/height; the
hover variant and the first scroll variant never touch the camera during
`render`. -/
theorem renderScrollV2_draws_with_region_aspect (width height : ℕ)
    (scene0 scene1 : Bool) (c : CamState) :
    drawsUseRegionAspect width height c (renderScrollV2 width height scene0 scene1) := by
  unfold drawsUseRegionAspect renderScrollV2
  by_cases hw : width < 768 <;> cases scene0 <;> cases scene1 <;>
    simp [hw, drawAspects, camStep, regionRect, renderRegions, Rect.aspectRatio]

/-- C5 (witness): the amended theorem applied at a concrete frame: on a
1024x600 desktop surface the draw of scene 0 runs with projection aspect
512/600, the left region's width over height. -/
theorem renderScrollV2_region_aspect_witness :
    ((512 : ℕ) : ℚ) / ((600 : ℕ) : ℚ) = (regionRect 1024 600 0).aspectRatio :=
  renderScrollV2_draws_with_region_aspect 1024 600 true true ⟨1, 1⟩
    ((0 : ℕ), ((512 : ℕ) : ℚ) / ((600 : ℕ) : ℚ))
    (by norm_num [renderScrollV2, drawAspects, camStep])

/-- C7 (counterexample): in the hover variant a missing scene 0 is not
skipped: `render` reaches the unguarded
`this.renderer.render(this.scenes[0], this.camera)` and throws (modelled
as `none`), in both orientations, and the other region is not drawn
either. -/
theorem renderHover_crashes_without_scene0 :
    renderHover 1024 600 false true = none ∧
    renderHover 375 800 false true = none := by
  decide

/-- C7 (amended): in the scroll variants (shown here on the first one,
whose `render` guards both draw calls), a region whose scene index is
missing has its draw skipped while the frame still succeeds and still
draws the other region: the trace contains the draw of scene `i` exactly
when scene `i` is present. -/
theorem renderScrollV1_skips_missing_scenes (width height : ℕ) (scene0 scene1 : Bool) :
    (RenderOp.draw 0 ∈ renderScrollV1 width height scene0 scene1 ↔ scene0 = true) ∧
    (RenderOp.draw 1 ∈ renderScrollV1 width height scene0 scene1 ↔ scene1 = true) := by
  constructor <;> rw [mem_draw_renderScrollV1] <;> simp

/-- C7 (witness): a 1024x600 frame with scene 0 missing and scene 1
present skips the first region's draw and still draws the second. -/
theorem renderScrollV1_skips_witness :
    (RenderOp.draw 0 ∈ renderScrollV1 1024 600 false true ↔ false = true) ∧
    (RenderOp.draw 1 ∈ renderScrollV1 1024 600 false true ↔ true = true) :=
  renderScrollV1_skips_missing_scenes 1024 600 false true

/-- C8: in the hover variant, for every pointer position within the
drawing surface the `mousemove` handler engages exactly one of the two
panels — the one on the pointer's side of the current split axis — and the
canvas `mouseleave` handler disengages both. -/
theorem hover_engagement_exclusive (isMobile : Bool) (cw ch x y : ℚ)
    (_hx0 : 0 ≤ x) (_hx1 : x ≤ cw) (_hy0 : 0 ≤ y) (_hy1 : y ≤ ch) :
    ((onMouseMove isMobile cw ch x y).h0 = true ↔
      (onMouseMove isMobile cw ch x y).h1 = false) ∧
    (isMobile = true → ((onMouseMove isMobile cw ch x y).h0 = true ↔ y < ch / 2)) ∧
    (isMobile = false → ((onMouseMove isMobile cw ch x y).h0 = true ↔ x < cw / 2)) ∧
    onCanvasMouseLeave.h0 = false ∧ onCanvasMouseLeave.h1 = false := by
  cases isMobile <;> simp [onMouseMove, onCanvasMouseLeave, not_le]

/-- C8 (witness): the theorem at a concrete pointer position, 100 pixels
into a 1024x600 desktop canvas: the left panel alone is engaged. -/
theorem hover_engagement_exclusive_witness :
    ((onMouseMove false 1024 600 100 50).h0 = true ↔
      (onMouseMove false 1024 600 100 50).h1 = false) ∧
    (false = true → ((onMouseMove false 1024 600 100 50).h0 = true ↔ (50 : ℚ) < 600 / 2)) ∧
    (false = false → ((onMouseMove false 1024 600 100 50).h0 = true ↔ (100 : ℚ) < 1024 / 2)) ∧
    onCanvasMouseLeave.h0 = false ∧ onCanvasMouseLeave.h1 = false :=
  hover_engagement_exclusive false 1024 600 100 50 (by norm_num) (by norm_num)
    (by norm_num) (by norm_num)

/-- C9: while the instance is out of view every `animate` tick is skipped
entirely — the state, including the displayed scroll progress and every
model rotation, is unchanged and `render` is not called — and once the
visibility callback marks it in view again the next tick renders. -/
theorem paused_tick_skips (s : ShowState) (h : s.isInView = false) :
    (animateTick s).1 = s ∧ (animateTick s).2.2 = false ∧
    (animateTick (observerCallback s true)).2.2 = true := by
  simp [animateTick, observerCallback, h]

/-- C9 (witness): the theorem at a concrete paused instance. -/
theorem paused_tick_skips_witness :
    (animateTick pausedState).1 = pausedState ∧ (animateTick pausedState).2.2 = false ∧
    (animateTick (observerCallback pausedState true)).2.2 = true :=
  paused_tick_skips pausedState rfl

/-- C2: `destroy` does not stop the render loop or cancel load
continuations.  Evaluated on a live instance with a pending load: after
`destroy` the renderer is disposed, yet the next `animate` tick still
schedules another frame and still calls `render`, and a GLTF continuation
resolving afterwards still writes its model node into the disposed
scene. -/
theorem destroy_keeps_ticking :
    (destroy pendingState).rendererDisposed = true ∧
    (animateTick (destroy pendingState)).2.1 = true ∧
    (animateTick (destroy pendingState)).2.2 = true ∧
    (gltfOnLoad (destroy pendingState) 0).sceneModels = pendingState.sceneModels + 1 ∧
    (gltfOnLoad (destroy pendingState) 0).models = [some 0, some 0] := by
  simp [destroy, animateTick, gltfOnLoad, pendingState]

/-- C3: the scroll handler divides by `sectionHeight - viewportHeight`
with no clamping: in the degenerate case `sectionHeight = viewportHeight`
with the section top at scroll position 0 it computes `0 / 0 = NaN`, NaN
survives the `Math.min`/`Math.max` clamp, and the stored target scroll
progress is NaN rather than a real number in [0, 1]. -/
theorem onScroll_nan_when_degenerate :
    onScroll 0 800 800 = JSNum.nan ∧
    (∀ q : ℚ, onScroll 0 800 800 ≠ JSNum.num q) := by
  have h : onScroll 0 800 800 = JSNum.nan := by
    norm_num [onScroll, jsDiv, jsMin, jsMax]
  refine ⟨h, fun q hq => ?_⟩
  rw [h] at hq
  exact JSNum.noConfusion hq

/-- Helper: the gap to the target contracts by the factor 0.92 each tick,
exactly. -/
theorem smoothIter_gap (t d0 : ℚ) (n : ℕ) :
    t - smoothIter t d0 n = (t - d0) * (0.92 : ℚ) ^ n := by
  induction n with
  | zero => simp [smoothIter]
  | succ n ih =>
      simp only [smoothIter, smoothStep]
      linear_combination (0.92 : ℚ) * ih

/-- Helper: the displayed progress stays in the unit interval. -/
theorem smoothIter_mem_unit (t d0 : ℚ) (ht0 : 0 ≤ t) (ht1 : t ≤ 1)
    (hd0 : 0 ≤ d0) (hd1 : d0 ≤ 1) (n : ℕ) :
    0 ≤ smoothIter t d0 n ∧ smoothIter t d0 n ≤ 1 := by
  induction n with
  | zero => exact ⟨hd0, hd1⟩
  | succ n ih =>
      obtain ⟨h0, h1⟩ := ih
      simp only [smoothIter, smoothStep]
      constructor <;> linarith

/-- Helper: from below the target, the displayed progress never
overshoots. -/
theorem smoothIter_le_target (t d0 : ℚ) (h : d0 ≤ t) (n : ℕ) :
    smoothIter t d0 n ≤ t := by
  induction n with
  | zero => exact h
  | succ n ih =>
      simp only [smoothIter, smoothStep]
      linarith

/-- Helper: from above the target, the displayed progress never
undershoots. -/
theorem target_le_smoothIter (t d0 : ℚ) (h : t ≤ d0) (n : ℕ) :
    t ≤ smoothIter t d0 n := by
  induction n with
  | zero => exact h
  | succ n ih =>
      simp only [smoothIter, smoothStep]
      linarith

/-- Helper: with the initial gap at most 1, the displayed progress comes
and stays within any positive distance of the target. -/
theorem smoothIter_converges (t d0 : ℚ) (hgap : |t - d0| ≤ 1)
    (eps : ℚ) (heps : 0 < eps) :
    ∃ N, ∀ n, N ≤ n → |t - smoothIter t d0 n| < eps := by
  obtain ⟨N, hN⟩ := exists_pow_lt_of_lt_one heps (by norm_num : (0.92 : ℚ) < 1)
  refine ⟨N, fun n hn => ?_⟩
  have hpow : (0.92 : ℚ) ^ n ≤ (0.92 : ℚ) ^ N :=
    pow_le_pow_of_le_one (by norm_num) (by norm_num) hn
  have hnn : (0 : ℚ) ≤ (0.92 : ℚ) ^ n := pow_nonneg (by norm_num) n
  calc |t - smoothIter t d0 n| = |t - d0| * (0.92 : ℚ) ^ n := by
        rw [smoothIter_gap, abs_mul, abs_of_nonneg hnn]
    _ ≤ 1 * (0.92 : ℚ) ^ n := mul_le_mul_of_nonneg_right hgap hnn
    _ = (0.92 : ℚ) ^ n := one_mul _
    _ ≤ (0.92 : ℚ) ^ N := hpow
    _ < eps := hN

/-- C4: with target and initial displayed progress in [0, 1], the per-tick
update `displayed += (target - displayed) * 0.08` keeps the displayed
value in [0, 1] forever, never overshoots the target from either side,
comes (and stays) within any positive eps of the target after a bounded
number of ticks, and after a 0-to-1 target jump the displayed value after
N ticks is exactly `1 - 0.92 ^ N`. -/
theorem smoothing_converges (t d0 : ℚ)
    (ht0 : 0 ≤ t) (ht1 : t ≤ 1) (hd0 : 0 ≤ d0) (hd1 : d0 ≤ 1) :
    (∀ n, 0 ≤ smoothIter t d0 n ∧ smoothIter t d0 n ≤ 1) ∧
    (d0 ≤ t → ∀ n, smoothIter t d0 n ≤ t) ∧
    (t ≤ d0 → ∀ n, t ≤ smoothIter t d0 n) ∧
    (∀ eps : ℚ, 0 < eps → ∃ N, ∀ n, N ≤ n → |t - smoothIter t d0 n| < eps) ∧
    (∀ N, smoothIter 1 0 N = 1 - (0.92 : ℚ) ^ N) := by
  refine ⟨smoothIter_mem_unit t d0 ht0 ht1 hd0 hd1,
    fun h n => smoothIter_le_target t d0 h n,
    fun h n => target_le_smoothIter t d0 h n,
    fun eps heps => smoothIter_converges t d0 ?_ eps heps,
    fun N => ?_⟩
  · rw [abs_le]
    constructor <;> linarith
  · have h := smoothIter_gap 1 0 N
    linarith

/-- C4 (witness): the theorem instantiated for the 0-to-1 target jump,
read off after two ticks. -/
theorem smoothing_converges_witness :
    smoothIter 1 0 2 = 1 - (0.92 : ℚ) ^ 2 :=
  (smoothing_converges 1 0 (by norm_num) (by norm_num) (by norm_num)
    (by norm_num)).2.2.2.2 2

/-- C10: with the panels data attribute absent the parsed panel list is
empty, so the `loadModels` forEach body never runs, `onModelsLoaded`
never fires and the loading indicator is never hidden — while the render
loop still proceeds without error: a frame with no scenes draws nothing,
and a tick still renders. -/
theorem empty_panels_ready_never_fires :
    loadModels (parsedPanels none) = ⟨0, 0⟩ ∧
    loadingHidden (loadModels (parsedPanels none)) = false ∧
    (∀ width height i, RenderOp.draw i ∉ renderScrollV1 width height false false) ∧
    (animateTick ⟨true, true, false, 0, 0, [], 0⟩).2.2 = true := by
  refine ⟨rfl, rfl, fun width height i => ?_, rfl⟩
  rw [mem_draw_renderScrollV1]
  simp

end ProductShowcase
